import Mathlib

/-!
Verification development for the STRATIFY frontend and its financial
formulas. The definitions below are shallow embeddings of the TypeScript
source (stores, pages, services); monetary amounts are modelled as
rationals, TS `number | undefined` fields as `Option ℚ`, and stateful
React/Zustand updates as explicit state-transition functions.
-/

namespace Stratify

/-- A financial record: a dated snapshot of revenue, expenses and cash
balance (spec §3). -/
structure FinancialRecord where
  revenue : ℚ
  expenses : ℚ
  cash_balance : ℚ
  deriving DecidableEq, Repr

/-- Modelled from the spec: the backend's burn-rate computation is not in
the frontend sources; spec §4 gives `burn_rate = expenses − revenue for
the latest period`. -/
def burn_rate (rec : FinancialRecord) : ℚ :=
  rec.expenses - rec.revenue

/-- Modelled from the spec: the backend's runway computation is not in the
frontend sources; spec §4 gives
`Runway = cash_balance / max(burn_rate, epsilon)`. The guard `epsilon` is
kept as an explicit positive parameter. -/
def runway (eps : ℚ) (rec : FinancialRecord) : ℚ :=
  rec.cash_balance / max (burn_rate rec) eps

/-- A scenario: a named what-if delta applied against the latest financial
baseline (spec §3). -/
structure Scenario where
  expense_change : ℚ
  revenue_change : ℚ
  cash_injection : ℚ
  deriving DecidableEq, Repr

/-- Modelled from the spec: the backend's scenario projection is not in the
frontend sources; spec §4 says scenario impact recomputes runway `with
expense/revenue baselines shifted by the scenario's stored deltas` (and
spec §3 adds a one-time cash injection). -/
def applyScenario (s : Scenario) (rec : FinancialRecord) : FinancialRecord :=
  { revenue := rec.revenue + s.revenue_change
    expenses := rec.expenses + s.expense_change
    cash_balance := rec.cash_balance + s.cash_injection }

/-- One point of the dashboard's cash-flow series
(`DashboardPage.tsx`); `income` and `expenses` are optional fields of the
TS record, `balance` is always present. -/
structure CashFlowPoint where
  balance : ℚ
  income : Option ℚ
  expenses : Option ℚ
  deriving DecidableEq, Repr

/-- JS truthiness of an optional number: `undefined` and `0` are falsy. -/
def truthyNum (o : Option ℚ) : Bool :=
  match o with
  | none => false
  | some x => decide (x ≠ 0)

/-- `latestMonth = cashFlow[cashFlow.length - 1]`
(`DashboardPage.tsx:112`); indexing past the end yields `undefined`. -/
def latestMonth (cashFlow : List CashFlowPoint) : Option CashFlowPoint :=
  cashFlow.get? (cashFlow.length - 1)

/-- `previousMonth = cashFlow.length > 1 ? cashFlow[cashFlow.length - 2] : null`
(`DashboardPage.tsx:113`). -/
def previousMonth (cashFlow : List CashFlowPoint) : Option CashFlowPoint :=
  if cashFlow.length > 1 then cashFlow.get? (cashFlow.length - 2) else none

/-- `revenueGrowth` (`DashboardPage.tsx:115-117`): guarded by JS truthiness
of `previousMonth`, `previousMonth.income` and `latestMonth?.income`. -/
def revenueGrowth (cashFlow : List CashFlowPoint) : ℚ :=
  match previousMonth cashFlow with
  | none => 0
  | some p =>
    if truthyNum p.income && truthyNum ((latestMonth cashFlow).bind (·.income)) then
      ((((latestMonth cashFlow).bind (·.income)).getD 0 - p.income.getD 0)
        / p.income.getD 0) * 100
    else 0

/-- `expenseChange` (`DashboardPage.tsx:119-121`): same guard shape over
the `expenses` fields. -/
def expenseChange (cashFlow : List CashFlowPoint) : ℚ :=
  match previousMonth cashFlow with
  | none => 0
  | some p =>
    if truthyNum p.expenses && truthyNum ((latestMonth cashFlow).bind (·.expenses)) then
      ((((latestMonth cashFlow).bind (·.expenses)).getD 0 - p.expenses.getD 0)
        / p.expenses.getD 0) * 100
    else 0

/-- `latestBurn = latestMonth ? (latestMonth.expenses || 0) - (latestMonth.income || 0) : 0`
(`DashboardPage.tsx:123`). -/
def latestBurn (cashFlow : List CashFlowPoint) : ℚ :=
  match latestMonth cashFlow with
  | some m => m.expenses.getD 0 - m.income.getD 0
  | none => 0

/-- `previousBurn` (`DashboardPage.tsx:124`). -/
def previousBurn (cashFlow : List CashFlowPoint) : ℚ :=
  match previousMonth cashFlow with
  | some m => m.expenses.getD 0 - m.income.getD 0
  | none => 0

/-- `burnChange = previousBurn !== 0 ? ((latestBurn - previousBurn) / Math.abs(previousBurn)) * 100 : 0`
(`DashboardPage.tsx:125`). -/
def burnChange (cashFlow : List CashFlowPoint) : ℚ :=
  if previousBurn cashFlow ≠ 0 then
    ((latestBurn cashFlow - previousBurn cashFlow) / |previousBurn cashFlow|) * 100
  else 0

/-- An investor match record received from the backend
(`investorService`, part_003). -/
structure InvestorMatch where
  investor_id : ℤ
  name : String
  match_score : ℚ
  website : String
  hq : String
  invType : String
  deriving DecidableEq, Repr

/-- The match-endpoint response (`MatchResults`, part_003). -/
structure MatchResults where
  status : String
  top_investors : List InvestorMatch
  deriving DecidableEq, Repr

/-- `LIMIT = 50` (`InvestorDirectoryPage.tsx:5`). -/
def LIMIT : Nat := 50

/-- The query parameters built by `fetchFilteredInvestors`
(part_003:68-74): `stage`, `hq`, `sort_by`, a fixed `limit` of `'50'`, and
the stringified `skip`. -/
def fetchFilteredInvestorsParams (stage hq sortBy : String) (skip : Nat) :
    List (String × String) :=
  [("stage", stage), ("hq", hq), ("sort_by", sortBy), ("limit", "50"),
   ("skip", toString skip)]

/-- The component state of `InvestorDirectoryPage` relevant to list
loading. -/
structure DirectoryState where
  investors : List InvestorMatch
  totalCount : Nat
  skip : Nat
  deriving DecidableEq, Repr

/-- How `loadInvestors` folds a successful fetch response into the page
state (`InvestorDirectoryPage.tsx:46-56`): a fresh search (`skip === 0`)
replaces the list, otherwise the page is appended. -/
def applyFetchResult (st : DirectoryState) (page : List InvestorMatch)
    (total : Nat) : DirectoryState :=
  if st.skip = 0 then
    { st with investors := page, totalCount := total }
  else
    { st with investors := st.investors ++ page, totalCount := total }

/-- The Load More button's click handler `setSkip(prev => prev + LIMIT)`
(`InvestorDirectoryPage.tsx:141`). -/
def loadMoreClick (st : DirectoryState) : DirectoryState :=
  { st with skip := st.skip + LIMIT }

/-- JS `Math.round`: round half toward positive infinity. -/
def jsRound (x : ℚ) : ℤ := ⌊x + 1 / 2⌋

/-- `matchPercent = Math.round(investor.match_score * 100)`
(`InvestorCard`, part_001:10). -/
def matchPercent (investor : InvestorMatch) : ℤ :=
  jsRound (investor.match_score * 100)

/-- The text of the card's match badge, `` `${matchPercent}% Match` ``
(part_001:21). -/
def matchBadgeText (investor : InvestorMatch) : String :=
  toString (matchPercent investor) ++ "% Match"

/-- `InvestorMatchList` stores the backend response's list unchanged:
`setInvestors(results.top_investors)` (part_001:58). -/
def investorsShown (results : MatchResults) : List InvestorMatch :=
  results.top_investors

/-- Role of a chat message in the CFO store (`cfo.store.ts:6-9`). -/
inductive ChatRole where
  | user
  | ai
  deriving DecidableEq, Repr

/-- A chat message (`cfo.store.ts:6-9`). -/
structure ChatMessage where
  role : ChatRole
  text : String
  deriving DecidableEq, Repr

/-- The CFO store state (`cfo.store.ts:11-21`). -/
structure CfoState where
  chatHistory : List ChatMessage
  monthlyReport : Option String
  isProcessingChat : Bool
  isGeneratingReport : Bool
  deriving DecidableEq, Repr

/-- The fixed fallback text appended when the chat request fails
(`cfo.store.ts:59`). -/
def chatErrorText : String :=
  "Error connecting to the financial engine. Please try again."

/-- `sendUserMessage` (`cfo.store.ts:34-65`) as a state transition. The
single HTTP call's outcome is `some response` on success and `none` on
failure; the three `set` calls (optimistic user append with the typing
indicator on, reply or fallback append, `finally` clearing the
indicator) are applied in order. -/
def sendUserMessage (text : String) (apiResult : Option String)
    (st : CfoState) : CfoState :=
  let st1 := { st with
    chatHistory := st.chatHistory ++ [ChatMessage.mk ChatRole.user text]
    isProcessingChat := true }
  let st2 :=
    match apiResult with
    | some response =>
        { st1 with chatHistory := st1.chatHistory ++ [ChatMessage.mk ChatRole.ai response] }
    | none =>
        { st1 with chatHistory := st1.chatHistory ++ [ChatMessage.mk ChatRole.ai chatErrorText] }
  { st2 with isProcessingChat := false }

/-- The authenticated user shape used by the auth store and login flow. -/
structure AuthUser where
  id : String
  email : String
  fullName : String
  onboardingCompleted : Bool
  deriving DecidableEq, Repr

/-- The externally visible effects of one `LoginPage.onSubmit` run. -/
structure LoginEffects where
  errorMessage : Option String
  navigatedTo : Option String
  loginCalled : Option (AuthUser × String)
  deriving DecidableEq, Repr

/-- Fallback message when the thrown login error is an `Error` with a
falsy `message` (part_004:224). -/
def loginErrorFallback : String := "Login failed. Please check your credentials."

/-- Fallback message when the thrown login value is not an `Error`
(part_004:226). -/
def loginNonErrorFallback : String := "Login failed. Please try again."

/-- `LoginPage.onSubmit` (part_004:209-231). The authentication call's
outcome is `Except.ok (user, token)`, or `Except.error e` where `e` is
`some message` for a thrown `Error` and `none` for a non-`Error` throw.
On success the auth store's `login` is called and navigation depends on
`onboardingCompleted`; on failure an inline error message is set, nothing
navigates and the auth store is untouched. -/
def loginOnSubmit (outcome : Except (Option String) (AuthUser × String)) :
    LoginEffects :=
  match outcome with
  | Except.ok (user, token) =>
      { errorMessage := none
        navigatedTo :=
          some (if user.onboardingCompleted then "/dashboard" else "/onboarding")
        loginCalled := some (user, token) }
  | Except.error e =>
      { errorMessage :=
          some (match e with
                | some msg => if msg = "" then loginErrorFallback else msg
                | none => loginNonErrorFallback)
        navigatedTo := none
        loginCalled := none }

/-- What a route component renders. -/
inductive RouteRender where
  | navigate (dest : String) (replaceHistory : Bool)
  | outlet
  deriving DecidableEq, Repr

/-- `ProtectedRoute` in `src/frontend/src/components/shared/ProtectedRoute.tsx`:
redirect to `/login` when unauthenticated, otherwise render child routes. -/
def ProtectedRoute (isAuthenticated : Bool) : RouteRender :=
  if !isAuthenticated then RouteRender.navigate "/login" true
  else RouteRender.outlet

/-- `ProtectedRoute` in part_002:44-47: authentication is skipped and the
outlet is always rendered. -/
def ProtectedRouteBypass (_isAuthenticated : Bool) : RouteRender :=
  RouteRender.outlet

/-- The registration form fields (part_004:13-19). -/
structure RegisterFormData where
  fullName : String
  email : String
  password : String
  deriving DecidableEq, Repr

/-- `registerSchema` (part_004:13-17): `fullName` at least 2 characters,
`email` a well-formed address (zod's `.email()` check, abstracted as the
predicate `emailValid`), `password` at least 8 characters. -/
def registerSchemaValid (emailValid : String → Bool)
    (d : RegisterFormData) : Bool :=
  decide (2 ≤ d.fullName.length) && emailValid d.email
    && decide (8 ≤ d.password.length)

/-- The per-field error messages produced by `registerSchema`
(part_004:14-16) for an input, in field order. -/
def registerFieldErrors (emailValid : String → Bool)
    (d : RegisterFormData) : List String :=
  (if 2 ≤ d.fullName.length then [] else ["Name must be at least 2 characters"])
    ++ (if emailValid d.email then [] else ["Invalid email address"])
    ++ (if 8 ≤ d.password.length then [] else ["Password must be at least 8 characters"])

/-- Outcome of submitting the registration form. -/
structure RegisterSubmitOutcome where
  networkCalled : Bool
  fieldErrors : List String
  deriving DecidableEq, Repr

/-- `handleSubmit(onSubmit)` with `zodResolver(registerSchema)`
(part_004:27-31): react-hook-form invokes `onSubmit` — which calls the
`register` service — only when the resolver accepts the input; otherwise
no network call is made and the failing fields' messages are rendered. -/
def handleRegisterSubmit (emailValid : String → Bool)
    (d : RegisterFormData) : RegisterSubmitOutcome :=
  if registerSchemaValid emailValid d then
    { networkCalled := true, fieldErrors := [] }
  else
    { networkCalled := false, fieldErrors := registerFieldErrors emailValid d }

/-! ## Theorems -/

/-- C1: for a financial record with expenses = 50000, revenue = 22000 and
cash_balance = 142000, the burn rate is 50000 − 22000 = 28000 and the
runway cash_balance / max(burn_rate, epsilon) is approximately 5.07
months (within 0.01), for any positive epsilon at most 1. -/
theorem c1_runway_example (eps : ℚ) (heps : 0 < eps) (heps1 : eps ≤ 1) :
    burn_rate ⟨22000, 50000, 142000⟩ = 28000 ∧
    |runway eps ⟨22000, 50000, 142000⟩ - 507 / 100| < 1 / 100 := by
  have hb : burn_rate ⟨22000, 50000, 142000⟩ = 28000 := by
    norm_num [burn_rate]
  refine ⟨hb, ?_⟩
  have hmax : max (burn_rate ⟨22000, 50000, 142000⟩) eps = 28000 := by
    rw [hb]
    exact max_eq_left (heps1.trans (by norm_num))
  rw [runway, hmax]
  rw [abs_lt]
  constructor <;> norm_num

/-- Witness for C1 at epsilon = 1. -/
theorem c1_runway_example_witness :
    burn_rate ⟨22000, 50000, 142000⟩ = 28000 ∧
    |runway 1 ⟨22000, 50000, 142000⟩ - 507 / 100| < 1 / 100 :=
  c1_runway_example 1 (by norm_num) (by norm_num)

/-- C2: for every cash-flow series whose last element exists, the
dashboard's `latestBurn` equals that last period's expenses minus its
revenue (missing fields defaulting to 0). -/
theorem c2_latest_burn_is_last_period (cashFlow : List CashFlowPoint)
    (m : CashFlowPoint) (h : cashFlow.getLast? = some m) :
    latestBurn cashFlow = m.expenses.getD 0 - m.income.getD 0 := by
  have hlast : latestMonth cashFlow = some m := by
    rw [latestMonth, List.get?_eq_getElem?, ← List.getLast?_eq_getElem?]
    exact h
  rw [latestBurn, hlast]

/-- Witness for C2 on a concrete two-month series. -/
theorem c2_latest_burn_is_last_period_witness :
    latestBurn
      [⟨100, some 1, some 2⟩, ⟨142000, some 22000, some 50000⟩] = 28000 := by
  rw [c2_latest_burn_is_last_period
    [⟨100, some 1, some 2⟩, ⟨142000, some 22000, some 50000⟩]
    ⟨142000, some 22000, some 50000⟩ rfl]
  norm_num

/-- C3 counterexample: with a zero cash balance, a +25000 expense-change
scenario leaves the projected runway equal to the baseline runway (both
are 0), so the projected runway is not strictly smaller for every
baseline record. -/
theorem c3_counterexample :
    ¬ runway 1 (applyScenario ⟨25000, 0, 0⟩ ⟨22000, 50000, 0⟩) <
        runway 1 ⟨22000, 50000, 0⟩ := by
  norm_num [runway, applyScenario, burn_rate]

/-- C3 (amended): for every baseline financial record with positive cash
balance whose burn rate is at least epsilon, applying a scenario whose
expense_change is +25000 (revenue and cash unchanged) yields a projected
runway strictly smaller than the baseline runway. -/
theorem c3_scenario_decreases_runway (eps : ℚ) (rec : FinancialRecord)
    (heps : 0 < eps) (hcash : 0 < rec.cash_balance)
    (hburn : eps ≤ burn_rate rec) :
    runway eps (applyScenario ⟨25000, 0, 0⟩ rec) < runway eps rec := by
  have hb : burn_rate (applyScenario ⟨25000, 0, 0⟩ rec) = burn_rate rec + 25000 := by
    simp [burn_rate, applyScenario]
    ring
  have hpos : 0 < burn_rate rec := lt_of_lt_of_le heps hburn
  have hmax1 : max (burn_rate rec) eps = burn_rate rec := max_eq_left hburn
  have hmax2 : max (burn_rate (applyScenario ⟨25000, 0, 0⟩ rec)) eps =
      burn_rate rec + 25000 := by
    rw [hb]
    exact max_eq_left (hburn.trans (by linarith))
  have hcash2 : (applyScenario ⟨25000, 0, 0⟩ rec).cash_balance = rec.cash_balance := by
    simp [applyScenario]
  rw [runway, runway, hmax1, hmax2, hcash2]
  exact div_lt_div_of_pos_left hcash hpos (by linarith)

/-- Witness for C3 (amended) at the spec's example record with eps = 1. -/
theorem c3_scenario_decreases_runway_witness :
    runway 1 (applyScenario ⟨25000, 0, 0⟩ ⟨22000, 50000, 142000⟩) <
      runway 1 ⟨22000, 50000, 142000⟩ :=
  c3_scenario_decreases_runway 1 ⟨22000, 50000, 142000⟩ (by norm_num)
    (by norm_num) (by norm_num [burn_rate])

/-- C4: every directory list request carries the stage, hq and sort_by
filters, a fixed limit of 50 and the current skip; a fresh search
(skip = 0) replaces the displayed list with the returned page, a
non-fresh fetch appends it, and every Load More click advances skip by
exactly 50 while leaving the displayed list untouched. -/
theorem c4_directory_pagination (stage hq sortBy : String)
    (st : DirectoryState) (page : List InvestorMatch) (total : Nat) :
    (fetchFilteredInvestorsParams stage hq sortBy st.skip).lookup "stage" = some stage ∧
    (fetchFilteredInvestorsParams stage hq sortBy st.skip).lookup "hq" = some hq ∧
    (fetchFilteredInvestorsParams stage hq sortBy st.skip).lookup "sort_by" = some sortBy ∧
    (fetchFilteredInvestorsParams stage hq sortBy st.skip).lookup "limit" = some "50" ∧
    (fetchFilteredInvestorsParams stage hq sortBy st.skip).lookup "skip" =
      some (toString st.skip) ∧
    (st.skip = 0 → (applyFetchResult st page total).investors = page) ∧
    (st.skip ≠ 0 → (applyFetchResult st page total).investors = st.investors ++ page) ∧
    (loadMoreClick st).skip = st.skip + 50 ∧
    (loadMoreClick st).investors = st.investors := by
  refine ⟨?_, ?_, ?_, ?_, ?_, ?_, ?_, ?_, ?_⟩
  · simp [fetchFilteredInvestorsParams, List.lookup]
  · simp [fetchFilteredInvestorsParams, List.lookup]
  · simp [fetchFilteredInvestorsParams, List.lookup]
  · simp [fetchFilteredInvestorsParams, List.lookup]
  · simp [fetchFilteredInvestorsParams, List.lookup]
  · intro h
    simp [applyFetchResult, h]
  · intro h
    simp [applyFetchResult, h]
  · simp [loadMoreClick, LIMIT]
  · simp [loadMoreClick]

/-- Witness for C4 at a concrete state with skip = 50 and a one-element
page. -/
theorem c4_directory_pagination_witness :
    (applyFetchResult ⟨[], 120, 50⟩ [⟨1, "a", 1, "w", "h", "VC"⟩] 120).investors =
        [] ++ [⟨1, "a", 1, "w", "h", "VC"⟩] ∧
    (loadMoreClick ⟨[], 120, 50⟩).skip = 100 :=
  ⟨((c4_directory_pagination "All" "All" "name_asc" ⟨[], 120, 50⟩
      [⟨1, "a", 1, "w", "h", "VC"⟩] 120).2.2.2.2.2.2.1 (by decide)),
   (c4_directory_pagination "All" "All" "name_asc" ⟨[], 120, 50⟩
      [⟨1, "a", 1, "w", "h", "VC"⟩] 120).2.2.2.2.2.2.2.1⟩

/-- C5: the frontend only renders the investor match score: the list shown
is exactly the backend response's `top_investors`, unaltered, and the card
badge displays `round(match_score × 100)` followed by `% Match`. -/
theorem c5_match_score_rendered (results : MatchResults) (investor : InvestorMatch) :
    investorsShown results = results.top_investors ∧
    matchPercent investor = round (investor.match_score * 100) ∧
    matchBadgeText investor =
      toString (round (investor.match_score * 100)) ++ "% Match" := by
  refine ⟨rfl, ?_, ?_⟩
  · rw [matchPercent, jsRound, round_eq]
  · rw [matchBadgeText, matchPercent, jsRound, round_eq]

/-- C6: `sendUserMessage` appends exactly two entries to the chat history —
the user's message, then the backend response or the fixed fallback text —
and leaves the typing indicator off; a single call produces a single
request outcome, with no retry. -/
theorem c6_send_user_message (text : String) (apiResult : Option String)
    (st : CfoState) :
    (sendUserMessage text apiResult st).chatHistory =
      st.chatHistory ++
        [ChatMessage.mk ChatRole.user text,
         ChatMessage.mk ChatRole.ai (apiResult.getD chatErrorText)] ∧
    (sendUserMessage text apiResult st).chatHistory.length =
      st.chatHistory.length + 2 ∧
    (sendUserMessage text apiResult st).isProcessingChat = false := by
  cases apiResult <;> simp [sendUserMessage]

/-- C7: a login submission whose authentication call throws sets a
non-null inline error, performs no navigation and never calls the auth
store's login; a successful submission calls it with the returned user
and token and navigates to /dashboard when onboarding is completed and to
/onboarding otherwise, with no error shown. -/
theorem c7_login_submit (outcome : Except (Option String) (AuthUser × String)) :
    (∀ e, outcome = Except.error e →
      (loginOnSubmit outcome).errorMessage ≠ none ∧
      (loginOnSubmit outcome).navigatedTo = none ∧
      (loginOnSubmit outcome).loginCalled = none) ∧
    (∀ user token, outcome = Except.ok (user, token) →
      (loginOnSubmit outcome).loginCalled = some (user, token) ∧
      (loginOnSubmit outcome).navigatedTo =
        some (if user.onboardingCompleted then "/dashboard" else "/onboarding") ∧
      (loginOnSubmit outcome).errorMessage = none) := by
  constructor
  · intro e he
    subst he
    refine ⟨?_, rfl, rfl⟩
    cases e <;> simp [loginOnSubmit]
  · intro user token hok
    subst hok
    exact ⟨rfl, rfl, rfl⟩

/-- Witness for C7: a thrown non-Error login failure shows the fallback
message and neither navigates nor touches the auth store. -/
theorem c7_login_submit_witness :
    (loginOnSubmit (Except.error none)).errorMessage ≠ none ∧
    (loginOnSubmit (Except.error none)).navigatedTo = none ∧
    (loginOnSubmit (Except.error none)).loginCalled = none :=
  (c7_login_submit (Except.error none)).1 none rfl

/-- C8 counterexample: in the unauthenticated state the shared
`ProtectedRoute` renders a redirect to /login while the part_002 version
renders the outlet, so the two implementations are not behaviourally
equivalent. -/
theorem c8_counterexample :
    ProtectedRoute false ≠ ProtectedRouteBypass false := by
  decide

/-- C8 (amended): the two `ProtectedRoute` implementations render the same
result exactly in the authenticated state; when unauthenticated they
differ, the shared one redirecting to /login and the part_002 one
rendering the outlet. -/
theorem c8_protected_routes_agree_iff_authenticated (isAuthenticated : Bool) :
    (ProtectedRoute isAuthenticated = ProtectedRouteBypass isAuthenticated ↔
      isAuthenticated = true) ∧
    ProtectedRoute false = RouteRender.navigate "/login" true ∧
    ProtectedRouteBypass false = RouteRender.outlet := by
  cases isAuthenticated <;> exact ⟨by decide, rfl, rfl⟩

/-- C9: the Analytics tab's derived percentages never divide by zero: each
of revenueGrowth, expenseChange and burnChange evaluates to 0 whenever the
previous month is absent or its corresponding denominator (previous
income, previous expenses, previous burn) is zero or missing. -/
theorem c9_analytics_no_div_by_zero (cashFlow : List CashFlowPoint) :
    (previousMonth cashFlow = none →
      revenueGrowth cashFlow = 0 ∧ expenseChange cashFlow = 0 ∧
        burnChange cashFlow = 0) ∧
    (∀ p, previousMonth cashFlow = some p →
      (p.income.getD 0 = 0 → revenueGrowth cashFlow = 0) ∧
      (p.expenses.getD 0 = 0 → expenseChange cashFlow = 0)) ∧
    (previousBurn cashFlow = 0 → burnChange cashFlow = 0) := by
  refine ⟨?_, ?_, ?_⟩
  · intro hnone
    refine ⟨?_, ?_, ?_⟩
    · rw [revenueGrowth, hnone]
    · rw [expenseChange, hnone]
    · rw [burnChange]
      have : previousBurn cashFlow = 0 := by rw [previousBurn, hnone]
      simp [this]
  · intro p hp
    constructor
    · intro hzero
      rw [revenueGrowth, hp]
      have : truthyNum p.income = false := by
        cases hinc : p.income with
        | none => rfl
        | some x =>
          rw [hinc] at hzero
          simp only [Option.getD] at hzero
          simp [truthyNum, hzero]
      simp [this]
    · intro hzero
      rw [expenseChange, hp]
      have : truthyNum p.expenses = false := by
        cases hexp : p.expenses with
        | none => rfl
        | some x =>
          rw [hexp] at hzero
          simp only [Option.getD] at hzero
          simp [truthyNum, hzero]
      simp [this]
  · intro hzero
    rw [burnChange]
    simp [hzero]

/-- Witness for C9 on the empty series: no previous month exists, so all
three percentages are 0. -/
theorem c9_analytics_no_div_by_zero_witness :
    revenueGrowth [] = 0 ∧ expenseChange [] = 0 ∧ burnChange [] = 0 :=
  (c9_analytics_no_div_by_zero []).1 rfl

/-- C10: the register service is invoked exactly when the submitted form
satisfies the validation schema — fullName at least 2 characters, a
well-formed email (zod's email predicate, abstracted), password at least
8 characters; on an invalid submission no network call is made and at
least one field error message is shown. -/
theorem c10_register_validation (emailValid : String → Bool)
    (d : RegisterFormData) :
    ((handleRegisterSubmit emailValid d).networkCalled = true ↔
      (2 ≤ d.fullName.length ∧ emailValid d.email = true ∧
        8 ≤ d.password.length)) ∧
    (registerSchemaValid emailValid d = false →
      (handleRegisterSubmit emailValid d).networkCalled = false ∧
      (handleRegisterSubmit emailValid d).fieldErrors ≠ []) := by
  have hnet : (handleRegisterSubmit emailValid d).networkCalled =
      registerSchemaValid emailValid d := by
    rcases h : registerSchemaValid emailValid d with _ | _ <;>
      simp [handleRegisterSubmit, h]
  constructor
  · rw [hnet, registerSchemaValid]
    simp [and_assoc]
  · intro hinvalid
    constructor
    · rw [hnet, hinvalid]
    · have herr : (handleRegisterSubmit emailValid d).fieldErrors =
          registerFieldErrors emailValid d := by
        simp [handleRegisterSubmit, hinvalid]
      rw [herr, registerFieldErrors]
      have h2 := hinvalid
      rw [registerSchemaValid] at h2
      simp only [Bool.and_eq_false_iff, decide_eq_false_iff_not] at h2
      rcases h2 with (h | h) | h
      · simp [h]
      · rw [Bool.eq_false_iff] at h
        simp [h]
      · simp [h]

/-- Witness for C10: a one-letter name with a short password makes no
network call and shows field errors, under an email predicate accepting
everything. -/
theorem c10_register_validation_witness :
    (handleRegisterSubmit (fun _ => true) ⟨"A", "a@b.co", "pw"⟩).networkCalled
        = false ∧
    (handleRegisterSubmit (fun _ => true) ⟨"A", "a@b.co", "pw"⟩).fieldErrors ≠ [] :=
  (c10_register_validation (fun _ => true) ⟨"A", "a@b.co", "pw"⟩).2 (by decide)

end Stratify
